import Mathlib

/-!
Shallow embedding of `src/lib/core.js` (palette-tokens core).

Numbers are modeled as exact rationals `ℚ`.  The only transcendental
operation in the source, `x ** 2.4` inside the WCAG linearization, is
modeled as an abstract function parameter `pow24 : ℚ → ℚ`; every theorem
is quantified over it, so nothing proved depends on its value.

The external color-science collaborators (`culori`'s `parse`/`oklch`/
`formatHex` and `dittotones`' `ditto.generate`) are modeled as an
abstract `ColorAdapter` structure: the spec declares them an external
capability, not part of this core.  A parse failure (malformed hex) is
`none`; `ditto.generate` may likewise fail on malformed input.

JavaScript particulars are modeled explicitly: property access on a
missing key yields `undefined` (here `Option.none`), `x || y` picks `y`
exactly when `x` is falsy, `%` is the truncated remainder, `Math.round`
rounds half toward positive infinity, and `parseInt(s, 16)` parses the
longest prefix of hex digits and is NaN (here `none`) when there is none.
-/

/-- Perceptual color triple as returned by culori's `oklch`: lightness,
chroma, and a hue that is absent (`undefined`) for achromatic colors. -/
structure Oklch where
  l : ℚ
  c : ℚ
  h : Option ℚ
deriving DecidableEq

/-- Abstract interface of the external color-science collaborators used
by `core.js`: `oklch(parse(hex))`, `formatHex(color)`, and
`ditto.generate(hex).scale` (a map from shade key to color, `none` when
the seed hex is rejected). -/
structure ColorAdapter where
  parseOklch : String → Option Oklch
  formatHex : Oklch → String
  generate : String → Option (String → Oklch)

/-- The fixed shade keys of every tonal scale (`SHADE_KEYS` in core.js). -/
def SHADE_KEYS : List String :=
  ["50", "100", "200", "300", "400", "500", "600", "700", "800", "900", "950"]

/-- JavaScript `Math.max` on two (non-NaN) numbers. -/
def jsMax (a b : ℚ) : ℚ := if a ≤ b then b else a

/-- JavaScript `Math.min` on two (non-NaN) numbers. -/
def jsMin (a b : ℚ) : ℚ := if a ≤ b then a else b

/-- JavaScript truncated remainder `a % b` (sign of the dividend). -/
def jsRem (a b : ℚ) : ℚ :=
  a - b * (if a / b < 0 then ((a / b).ceil : ℚ) else ((a / b).floor : ℚ))

/-- Mathematical modulus on rationals, used to state "mod 360" claims. -/
def mathMod (a b : ℚ) : ℚ := a - b * (⌊a / b⌋ : ℚ)

/-- Embedding of `scaleToHexMap`: formats the 11 shades of a generated
scale as an association list keyed by `SHADE_KEYS`. -/
def scaleToHexMap (A : ColorAdapter) (scale : String → Oklch) : List (String × String) :=
  SHADE_KEYS.map (fun shade => (shade, A.formatHex (scale shade)))

/-- Embedding of `generateColorScale`: the seed is the primary hex
itself; `none` models `ditto.generate` throwing on a malformed hex. -/
def generateColorScale (A : ColorAdapter) (primaryHex : String) :
    Option (List (String × String)) :=
  match A.generate primaryHex with
  | none => none
  | some sc => some (scaleToHexMap A sc)

/-- Embedding of `generateNeutralScale`: desaturated seed with the same
lightness and hue, chroma `min(c * 0.12, 0.02)`; `none` models a crash on
an unparseable primary hex. -/
def generateNeutralScale (A : ColorAdapter) (primaryHex : String) :
    Option (List (String × String)) :=
  match A.parseOklch primaryHex with
  | none => none
  | some p =>
    match A.generate (A.formatHex { l := p.l, c := jsMin (p.c * 0.12) 0.02, h := p.h }) with
    | none => none
    | some sc => some (scaleToHexMap A sc)

/-- Embedding of `generateSecondaryScale`.  The outer `Option` models
crash-freedom (`none` = the JS function threw); the inner `Option` is the
function's own result, `none` modeling the explicit `null` returned for
scheme `"single"`.  `p.h || 0` is `Option.getD 0` (an absent hue and a
zero hue are both falsy and both yield 0). -/
def generateSecondaryScale (A : ColorAdapter) (primaryHex scheme : String) :
    Option (Option (List (String × String))) :=
  if scheme = "single" then some none
  else
    match A.parseOklch primaryHex with
    | none => none
    | some p =>
      let shift : ℚ := if scheme = "analogous" then 40 else 180
      let newHue : ℚ := jsRem (p.h.getD 0 + shift) 360
      let secHex := A.formatHex { l := p.l, c := p.c * 0.85, h := some newHue }
      match A.generate secHex with
      | none => none
      | some sc => some (some (scaleToHexMap A sc))

/-- One entry of a role table: a scale source (`"neutral"`, `"color"` or
`"accent"`) and a shade key. -/
structure RoleDef where
  source : String
  shade : String
deriving DecidableEq

/-- Embedding of `LIGHT_ROLES` (order is JS object-key insertion order,
which `Object.entries` preserves). -/
def LIGHT_ROLES : List (String × RoleDef) :=
  [ ("bg", { source := "neutral", shade := "50" })
  , ("surface", { source := "neutral", shade := "100" })
  , ("border", { source := "neutral", shade := "200" })
  , ("text-muted", { source := "neutral", shade := "500" })
  , ("text", { source := "neutral", shade := "900" })
  , ("primary", { source := "color", shade := "500" })
  , ("secondary", { source := "accent", shade := "200" }) ]

/-- Embedding of `DARK_ROLES`. -/
def DARK_ROLES : List (String × RoleDef) :=
  [ ("bg", { source := "neutral", shade := "900" })
  , ("surface", { source := "neutral", shade := "800" })
  , ("border", { source := "neutral", shade := "700" })
  , ("text-muted", { source := "neutral", shade := "400" })
  , ("text", { source := "neutral", shade := "50" })
  , ("primary", { source := "color", shade := "600" })
  , ("primary-text", { source := "color", shade := "400" })
  , ("secondary", { source := "accent", shade := "800" }) ]

/-- Embedding of `resolveTokens`.  Scales are association lists; a JS
property read on a missing shade key yields `undefined`, modeled as
`List.lookup` returning `none`, so each token value is an
`Option String`.  `secondaryScale || colorScale` is `Option.getD` (the
only falsy non-`null` object values, `NaN`-like, cannot arise). -/
def resolveTokens (colorScale neutralScale : List (String × String))
    (secondaryScale : Option (List (String × String))) (dark : Bool) :
    List (String × Option String) :=
  let roles := if dark then DARK_ROLES else LIGHT_ROLES
  let accentScale := secondaryScale.getD colorScale
  roles.map (fun rd =>
    (rd.1,
      if rd.2.source = "neutral" then neutralScale.lookup rd.2.shade
      else if rd.2.source = "accent" then accentScale.lookup rd.2.shade
      else colorScale.lookup rd.2.shade))

/-- Value of one hex digit, or `none` for a non-digit. -/
def hexDigitVal (ch : Char) : Option Nat :=
  if '0' ≤ ch ∧ ch ≤ '9' then some (ch.toNat - '0'.toNat)
  else if 'a' ≤ ch ∧ ch ≤ 'f' then some (ch.toNat - 'a'.toNat + 10)
  else if 'A' ≤ ch ∧ ch ≤ 'F' then some (ch.toNat - 'A'.toNat + 10)
  else none

/-- Accumulates further leading hex digits, stopping (like `parseInt`) at
the first non-digit. -/
def hexRunVal (acc : Nat) : List Char → Nat
  | [] => acc
  | ch :: rest =>
    match hexDigitVal ch with
    | some d => hexRunVal (acc * 16 + d) rest
    | none => acc

/-- JavaScript `parseInt(s, 16)` on a character list: value of the
longest prefix of hex digits, `none` (NaN) when the first character is
not a hex digit. -/
def parseInt16 : List Char → Option Nat
  | [] => none
  | ch :: rest =>
    match hexDigitVal ch with
    | some d => some (hexRunVal d rest)
    | none => none

/-- One color channel of `relativeLuminance`:
`parseInt(hex.slice(i, i+2), 16) / 255`, `none` modeling NaN. -/
def channel (hex : String) (i : Nat) : Option ℚ :=
  (parseInt16 ((hex.toList.drop i).take 2)).map (fun n => (n : ℚ) / 255)

/-- Embedding of the `toLinear` closure inside `relativeLuminance`, with
the `** 2.4` power abstracted as `pow24`. -/
def toLinear (pow24 : ℚ → ℚ) (c : ℚ) : ℚ :=
  if c ≤ 0.03928 then c / 12.92 else pow24 ((c + 0.055) / 1.055)

/-- Embedding of `relativeLuminance`; `none` models a NaN result from an
unparseable channel (NaN poisons the whole sum). -/
def relativeLuminance (pow24 : ℚ → ℚ) (hex : String) : Option ℚ :=
  match channel hex 1, channel hex 3, channel hex 5 with
  | some r, some g, some b =>
    some (0.2126 * toLinear pow24 r + 0.7152 * toLinear pow24 g + 0.0722 * toLinear pow24 b)
  | _, _, _ => none

/-- Embedding of `contrastRatio`. -/
def contrastRatio (pow24 : ℚ → ℚ) (hex1 hex2 : String) : Option ℚ :=
  match relativeLuminance pow24 hex1, relativeLuminance pow24 hex2 with
  | some l1, some l2 => some ((jsMax l1 l2 + 0.05) / (jsMin l1 l2 + 0.05))
  | _, _ => none

/-- JavaScript `Math.round(r * 100) / 100` (round half toward +∞). -/
def jsRound2 (r : ℚ) : ℚ := (((r * 100 + 1 / 2).floor : ℤ) : ℚ) / 100

/-- One WCAG audit entry: `ratio` rounded to 2 decimals (`none` = NaN)
and the pass flag computed from the unrounded ratio. -/
structure ContrastEntry where
  ratio : Option ℚ
  pass : Bool
deriving DecidableEq

/-- The loop body of `checkWCAG` for one foreground/background pair of
hex strings: `{ ratio: Math.round(ratio * 100) / 100, pass: ratio >= 4.5 }`
(a NaN ratio compares false). -/
def wcagEntry (pow24 : ℚ → ℚ) (fg bg : String) : ContrastEntry :=
  match contrastRatio pow24 fg bg with
  | some r => { ratio := some (jsRound2 r), pass := decide (9 / 2 ≤ r) }
  | none => { ratio := none, pass := false }

/-- The six unconditional audit pairs of `checkWCAG`. -/
def basePairs : List (String × String) :=
  [ ("text", "bg"), ("text", "surface")
  , ("text-muted", "bg"), ("text-muted", "surface")
  , ("primary", "bg"), ("primary", "surface") ]

/-- The two pairs added when `tokens['primary-text']` is truthy. -/
def extraPairs : List (String × String) :=
  [ ("primary-text", "bg"), ("primary-text", "surface") ]

/-- JavaScript truthiness of `tokens[key]`: the key is bound to a
defined, non-empty string. -/
def tokenTruthy (tokens : List (String × Option String)) (key : String) : Bool :=
  match tokens.lookup key with
  | some (some s) => decide (s ≠ "")
  | _ => false

/-- The `for` loop of `checkWCAG` over a pair list.  A pair whose
foreground or background token is absent or `undefined` crashes the JS
function (`undefined.slice`), modeled by `none`. -/
def auditPairs (pow24 : ℚ → ℚ) (tokens : List (String × Option String)) :
    List (String × String) → Option (List (String × ContrastEntry))
  | [] => some []
  | (fg, bg) :: rest =>
    match tokens.lookup fg, tokens.lookup bg with
    | some (some f), some (some b) =>
      (auditPairs pow24 tokens rest).map
        (fun acc => (fg ++ "/" ++ bg, wcagEntry pow24 f b) :: acc)
    | _, _ => none

/-- Embedding of `checkWCAG`. -/
def checkWCAG (pow24 : ℚ → ℚ) (tokens : List (String × Option String)) :
    Option (List (String × ContrastEntry)) :=
  auditPairs pow24 tokens
    (basePairs ++ (if tokenTruthy tokens "primary-text" then extraPairs else []))

/-- Valid `#rrggbb` hex color string. -/
def isHexColorB (s : String) : Bool :=
  decide (s.toList.head? = some '#') && decide ((s.toList.drop 1).length = 6)
    && (s.toList.drop 1).all (fun ch => (hexDigitVal ch).isSome)

/-- Spec-side channel decoding (`Modelled from the spec`): exactly two
hex digits read at position `i`, mapped into `[0,1]` by dividing by 255. -/
def wcagChannel (hex : String) (i : Nat) : Option ℚ :=
  match (hex.toList.drop i).take 2 with
  | [hi, lo] =>
    match hexDigitVal hi, hexDigitVal lo with
    | some d1, some d2 => some (((d1 * 16 + d2 : Nat) : ℚ) / 255)
    | _, _ => none
  | _ => none

/-- Spec-side WCAG 2.x relative luminance, written from the spec's
words: decode R, G, B to `[0,1]`, linearize piecewise, combine as
`0.2126 R + 0.7152 G + 0.0722 B`. -/
def wcagLuminance (pow24 : ℚ → ℚ) (hex : String) : Option ℚ :=
  match wcagChannel hex 1, wcagChannel hex 3, wcagChannel hex 5 with
  | some r, some g, some b =>
    some (0.2126 * toLinear pow24 r + 0.7152 * toLinear pow24 g + 0.0722 * toLinear pow24 b)
  | _, _, _ => none

/-! ## Helper lemmas -/

lemma len_six {α : Type} : ∀ (l : List α), l.length = 6 →
    ∃ a b c d e f, l = [a, b, c, d, e, f]
  | [a, b, c, d, e, f], _ => ⟨a, b, c, d, e, f, rfl⟩
  | [], h => by simp at h
  | [_], h => by simp at h
  | [_, _], h => by simp at h
  | [_, _, _], h => by simp at h
  | [_, _, _, _], h => by simp at h
  | [_, _, _, _, _], h => by simp at h
  | _ :: _ :: _ :: _ :: _ :: _ :: _ :: _, h => by simp at h

lemma parseInt16_pair (c1 c2 : Char) (d1 d2 : Nat)
    (h1 : hexDigitVal c1 = some d1) (h2 : hexDigitVal c2 = some d2) :
    parseInt16 [c1, c2] = some (d1 * 16 + d2) := by
  simp [parseInt16, hexRunVal, h1, h2]

lemma hexColor_shape (hex : String) (hv : isHexColorB hex = true) :
    ∃ c1 c2 c3 c4 c5 c6 d1 d2 d3 d4 d5 d6,
      hex.toList = ['#', c1, c2, c3, c4, c5, c6] ∧
      hexDigitVal c1 = some d1 ∧ hexDigitVal c2 = some d2 ∧
      hexDigitVal c3 = some d3 ∧ hexDigitVal c4 = some d4 ∧
      hexDigitVal c5 = some d5 ∧ hexDigitVal c6 = some d6 := by
  unfold isHexColorB at hv
  simp only [Bool.and_eq_true, decide_eq_true_eq, List.all_eq_true] at hv
  obtain ⟨⟨hhead, hlen⟩, hall⟩ := hv
  rcases hl : hex.toList with _ | ⟨c0, rest⟩
  · rw [hl] at hhead; simp at hhead
  · rw [hl] at hhead hlen hall
    simp only [List.head?] at hhead
    obtain rfl : c0 = '#' := by injection hhead
    simp only [List.drop_succ_cons, List.drop_zero] at hlen hall
    obtain ⟨c1, c2, c3, c4, c5, c6, rfl⟩ := len_six rest hlen
    have h1 := hall c1 (by simp)
    have h2 := hall c2 (by simp)
    have h3 := hall c3 (by simp)
    have h4 := hall c4 (by simp)
    have h5 := hall c5 (by simp)
    have h6 := hall c6 (by simp)
    rw [Option.isSome_iff_exists] at h1 h2 h3 h4 h5 h6
    obtain ⟨d1, h1⟩ := h1
    obtain ⟨d2, h2⟩ := h2
    obtain ⟨d3, h3⟩ := h3
    obtain ⟨d4, h4⟩ := h4
    obtain ⟨d5, h5⟩ := h5
    obtain ⟨d6, h6⟩ := h6
    exact ⟨c1, c2, c3, c4, c5, c6, d1, d2, d3, d4, d5, d6, rfl,
      h1, h2, h3, h4, h5, h6⟩

lemma relativeLuminance_eq_wcag (pow24 : ℚ → ℚ) (hex : String)
    (hv : isHexColorB hex = true) :
    ∃ L, relativeLuminance pow24 hex = some L ∧ wcagLuminance pow24 hex = some L := by
  obtain ⟨c1, c2, c3, c4, c5, c6, d1, d2, d3, d4, d5, d6, hl,
    h1, h2, h3, h4, h5, h6⟩ := hexColor_shape hex hv
  refine ⟨0.2126 * toLinear pow24 (((d1 * 16 + d2 : Nat) : ℚ) / 255)
      + 0.7152 * toLinear pow24 (((d3 * 16 + d4 : Nat) : ℚ) / 255)
      + 0.0722 * toLinear pow24 (((d5 * 16 + d6 : Nat) : ℚ) / 255), ?_, ?_⟩
  · unfold relativeLuminance channel
    rw [hl]
    simp only [List.drop_succ_cons, List.drop_zero, List.take_succ_cons,
      List.take_zero, List.drop_succ_cons]
    rw [parseInt16_pair c1 c2 d1 d2 h1 h2, parseInt16_pair c3 c4 d3 d4 h3 h4,
      parseInt16_pair c5 c6 d5 d6 h5 h6]
    simp
  · unfold wcagLuminance wcagChannel
    rw [hl]
    simp only [List.drop_succ_cons, List.drop_zero, List.take_succ_cons,
      List.take_zero, List.drop_succ_cons]
    rw [h1, h2, h3, h4, h5, h6]

lemma jsMax_eq_max (a b : ℚ) : jsMax a b = max a b := by
  rw [jsMax, max_def]

lemma jsMin_eq_min (a b : ℚ) : jsMin a b = min a b := by
  rw [jsMin, min_def]

/-! ## Claims -/

/-- C9: `contrastRatio(a, b)` equals `contrastRatio(b, a)` for every pair
of hex color strings — the function is symmetric in its two arguments
(here proved for all strings, a NaN result being `none` on both sides). -/
theorem contrastRatio_symm (pow24 : ℚ → ℚ) (a b : String) :
    contrastRatio pow24 a b = contrastRatio pow24 b a := by
  unfold contrastRatio
  cases relativeLuminance pow24 a <;> cases relativeLuminance pow24 b <;>
    simp [jsMax_eq_max, jsMin_eq_min, max_comm, min_comm]

/-- C2: for every pair of `#rrggbb` hex strings, `contrastRatio(h1, h2)`
equals `(max(L1,L2)+0.05)/(min(L1,L2)+0.05)` where each `Li` is the WCAG
2.x relative luminance of the corresponding hex string: channels decoded
to `[0,1]`, linearized piecewise, combined as `0.2126 R + 0.7152 G +
0.0722 B` (the `** 2.4` power abstracted as `pow24`). -/
theorem contrastRatio_is_wcag (pow24 : ℚ → ℚ) (h1 h2 : String)
    (hv1 : isHexColorB h1 = true) (hv2 : isHexColorB h2 = true) :
    ∃ L1 L2, wcagLuminance pow24 h1 = some L1 ∧ wcagLuminance pow24 h2 = some L2 ∧
      contrastRatio pow24 h1 h2 = some ((max L1 L2 + 0.05) / (min L1 L2 + 0.05)) := by
  obtain ⟨L1, hc1, hw1⟩ := relativeLuminance_eq_wcag pow24 h1 hv1
  obtain ⟨L2, hc2, hw2⟩ := relativeLuminance_eq_wcag pow24 h2 hv2
  refine ⟨L1, L2, hw1, hw2, ?_⟩
  unfold contrastRatio
  rw [hc1, hc2]
  simp [jsMax_eq_max, jsMin_eq_min]

/-- Witness for C2 at the concrete pair `#000000` / `#ffffff`. -/
theorem contrastRatio_is_wcag_witness :
    ∃ L1 L2, wcagLuminance (fun q => q) "#000000" = some L1 ∧
      wcagLuminance (fun q => q) "#ffffff" = some L2 ∧
      contrastRatio (fun q => q) "#000000" "#ffffff" =
        some ((max L1 L2 + 0.05) / (min L1 L2 + 0.05)) :=
  contrastRatio_is_wcag (fun q => q) "#000000" "#ffffff" (by decide) (by decide)

lemma ratFloor_eq_intFloor (q : ℚ) : (Rat.floor q : ℤ) = ⌊q⌋ :=
  (Rat.floor_def' q).trans Rat.floor_def.symm

lemma jsRem_eq_mathMod (a b : ℚ) (ha : 0 ≤ a) (hb : 0 < b) :
    jsRem a b = mathMod a b := by
  unfold jsRem mathMod
  rw [if_neg (not_lt.mpr (div_nonneg ha hb.le)), ratFloor_eq_intFloor]

/-- Deterministic adapter instance used by the concrete witnesses. -/
def demoScale : String → Oklch := fun _ => { l := 0, c := 0, h := none }

/-- Deterministic adapter whose parse always yields lightness 1/2,
chroma 1/10 and hue 30. -/
def demoAdapter : ColorAdapter where
  parseOklch := fun _ => some { l := 1 / 2, c := 1 / 10, h := some 30 }
  formatHex := fun _ => "#336699"
  generate := fun _ => some demoScale

/-- C1: for a parseable primary hex, `generateSecondaryScale` returns
absent (`null`, not an empty scale) for scheme `single`; for `analogous`
and `complementary` it synthesizes a scale from a seed keeping the
primary's lightness, scaling its chroma by 0.85 and shifting its hue by
+40 resp. +180 degrees modulo 360, a missing hue being treated as 0. -/
theorem generateSecondaryScale_spec (A : ColorAdapter) (hex : String) (p : Oklch)
    (sc40 sc180 : String → Oklch)
    (hp : A.parseOklch hex = some p) (hh : 0 ≤ p.h.getD 0)
    (hg40 : A.generate (A.formatHex
      { l := p.l, c := p.c * 0.85, h := some (mathMod (p.h.getD 0 + 40) 360) }) = some sc40)
    (hg180 : A.generate (A.formatHex
      { l := p.l, c := p.c * 0.85, h := some (mathMod (p.h.getD 0 + 180) 360) }) = some sc180) :
    generateSecondaryScale A hex "single" = some none ∧
    generateSecondaryScale A hex "analogous" = some (some (scaleToHexMap A sc40)) ∧
    generateSecondaryScale A hex "complementary" = some (some (scaleToHexMap A sc180)) := by
  refine ⟨by simp [generateSecondaryScale], ?_, ?_⟩
  · have e : jsRem (p.h.getD 0 + 40) 360 = mathMod (p.h.getD 0 + 40) 360 :=
      jsRem_eq_mathMod _ _ (add_nonneg hh (by norm_num)) (by norm_num)
    simp [generateSecondaryScale, hp, e, hg40]
  · have e : jsRem (p.h.getD 0 + 180) 360 = mathMod (p.h.getD 0 + 180) 360 :=
      jsRem_eq_mathMod _ _ (add_nonneg hh (by norm_num)) (by norm_num)
    simp [generateSecondaryScale, hp, e, hg180]

/-- Witness for C1 with the deterministic demo adapter. -/
theorem generateSecondaryScale_spec_witness :
    generateSecondaryScale demoAdapter "#6366f1" "single" = some none ∧
    generateSecondaryScale demoAdapter "#6366f1" "analogous" =
      some (some (scaleToHexMap demoAdapter demoScale)) ∧
    generateSecondaryScale demoAdapter "#6366f1" "complementary" =
      some (some (scaleToHexMap demoAdapter demoScale)) :=
  generateSecondaryScale_spec demoAdapter "#6366f1"
    { l := 1 / 2, c := 1 / 10, h := some 30 } demoScale demoScale
    rfl (by norm_num) rfl rfl

/-- C4: every scheme value other than `single` and `analogous` (any
unrecognized string included) resolves the hue shift to 180 and behaves
exactly as `complementary`; no validation failure is raised. -/
theorem generateSecondaryScale_default_complementary (A : ColorAdapter)
    (hex scheme : String) (h1 : scheme ≠ "single") (h2 : scheme ≠ "analogous") :
    generateSecondaryScale A hex scheme = generateSecondaryScale A hex "complementary" := by
  simp only [generateSecondaryScale, h1, h2]
  simp

/-- Witness for C4 at the unrecognized scheme value `triadic`. -/
theorem generateSecondaryScale_default_complementary_witness :
    generateSecondaryScale demoAdapter "#6366f1" "triadic" =
      generateSecondaryScale demoAdapter "#6366f1" "complementary" :=
  generateSecondaryScale_default_complementary demoAdapter "#6366f1" "triadic"
    (by decide) (by decide)

/-- C3 counterexample: with a neutral scale missing the shade key `50`
referenced by the light role table, `resolveTokens` does not error; it
returns a token set binding `bg` to `undefined` (`some none` = the key
is present, its value is undefined). -/
theorem resolveTokens_missing_shade_counterexample :
    (resolveTokens [] [] none false).lookup "bg" = some none := by decide

/-- C3 amended: `resolveTokens` never fails fast.  Every role of the
selected table is bound to the raw scale lookup, which is `undefined`
(`none`) whenever the shade key is absent from the scale; no
assertion-level failure exists. -/
theorem resolveTokens_silent_on_missing_shade (cs ns : List (String × String))
    (ss : Option (List (String × String))) (dark : Bool) (role : String) (d : RoleDef)
    (hmem : (role, d) ∈ (if dark then DARK_ROLES else LIGHT_ROLES)) :
    (resolveTokens cs ns ss dark).lookup role =
      some ((if d.source = "neutral" then ns
             else if d.source = "accent" then ss.getD cs else cs).lookup d.shade) := by
  cases dark <;> simp only [Bool.false_eq_true, if_false, if_true] at hmem <;>
    fin_cases hmem <;> rfl

/-- Witness for the C3 amended theorem: the light `bg` role against an
empty neutral scale resolves to a token bound to `undefined`. -/
theorem resolveTokens_silent_on_missing_shade_witness :
    (resolveTokens [] [] none false).lookup "border" = some none := by
  have h := resolveTokens_silent_on_missing_shade [] [] none false "border"
    { source := "neutral", shade := "200" } (by decide)
  simpa using h

/-- C5: with the secondary scale absent (scheme `single`), every
accent-sourced role resolves against the color scale: light `secondary`
is `colorScale["200"]`, dark `secondary` is `colorScale["800"]`. -/
theorem resolveTokens_accent_fallback (cs ns : List (String × String)) (dark : Bool)
    (role : String) (d : RoleDef)
    (hmem : (role, d) ∈ (if dark then DARK_ROLES else LIGHT_ROLES))
    (hsrc : d.source = "accent") :
    (resolveTokens cs ns none dark).lookup role = some (cs.lookup d.shade) ∧
    (resolveTokens cs ns none false).lookup "secondary" = some (cs.lookup "200") ∧
    (resolveTokens cs ns none true).lookup "secondary" = some (cs.lookup "800") := by
  refine ⟨?_, by rfl, by rfl⟩
  cases dark <;> simp only [Bool.false_eq_true, if_false, if_true] at hmem <;>
    fin_cases hmem <;> first
  | exact absurd hsrc (by decide)
  | rfl

/-- Witness for C5 at the light `secondary` role with a concrete scale. -/
theorem resolveTokens_accent_fallback_witness :
    (resolveTokens [("200", "#aabbcc"), ("800", "#112233")] [] none false).lookup
        "secondary" = some (some "#aabbcc") ∧
    (resolveTokens [("200", "#aabbcc"), ("800", "#112233")] [] none true).lookup
        "secondary" = some (some "#112233") := by
  have h := resolveTokens_accent_fallback [("200", "#aabbcc"), ("800", "#112233")] []
    false "secondary" { source := "accent", shade := "200" } (by decide) rfl
  exact ⟨by simpa using h.2.1, by simpa using h.2.2⟩

/-- C6: the keys of the token set returned by `resolveTokens` are exactly
the roles of the selected role table; with `dark = false` no
`primary-text` key is produced, with `dark = true` one always is. -/
theorem resolveTokens_role_keys (cs ns : List (String × String))
    (ss : Option (List (String × String))) (dark : Bool) :
    (resolveTokens cs ns ss dark).map Prod.fst =
      (if dark then DARK_ROLES else LIGHT_ROLES).map Prod.fst ∧
    ((resolveTokens cs ns ss false).map Prod.fst).contains "primary-text" = false ∧
    ((resolveTokens cs ns ss true).map Prod.fst).contains "primary-text" = true := by
  refine ⟨?_, ?_, ?_⟩
  · cases dark <;> simp [resolveTokens, LIGHT_ROLES, DARK_ROLES]
  · simp [resolveTokens, LIGHT_ROLES]
  · simp [resolveTokens, DARK_ROLES]

lemma scaleToHexMap_keys (A : ColorAdapter) (sc : String → Oklch) :
    (scaleToHexMap A sc).map Prod.fst = SHADE_KEYS := by
  simp [scaleToHexMap, List.map_map, Function.comp_def]

lemma scaleToHexMap_values (A : ColorAdapter) (sc : String → Oklch)
    (hfmt : ∀ c, isHexColorB (A.formatHex c) = true) :
    (scaleToHexMap A sc).all (fun kv => isHexColorB kv.2) = true := by
  rw [List.all_eq_true]
  intro kv hkv
  simp only [scaleToHexMap, List.mem_map] at hkv
  obtain ⟨shade, _, rfl⟩ := hkv
  exact hfmt (sc shade)

lemma generateColorScale_inv (A : ColorAdapter) (hex : String)
    (m : List (String × String)) (h : generateColorScale A hex = some m) :
    ∃ sc, m = scaleToHexMap A sc := by
  unfold generateColorScale at h
  split at h
  · exact absurd h (by simp)
  · exact ⟨_, (Option.some.inj h).symm⟩

lemma generateNeutralScale_inv (A : ColorAdapter) (hex : String)
    (m : List (String × String)) (h : generateNeutralScale A hex = some m) :
    ∃ sc, m = scaleToHexMap A sc := by
  unfold generateNeutralScale at h
  split at h
  · exact absurd h (by simp)
  · split at h
    · exact absurd h (by simp)
    · exact ⟨_, (Option.some.inj h).symm⟩

lemma generateSecondaryScale_inv (A : ColorAdapter) (hex scheme : String)
    (m : List (String × String)) (h : generateSecondaryScale A hex scheme = some (some m)) :
    ∃ sc, m = scaleToHexMap A sc := by
  unfold generateSecondaryScale at h
  split at h
  · exact absurd h (by simp)
  · split at h
    · exact absurd h (by simp)
    · split at h <;> (simp only [] at h; split at h) <;>
        first
      | (simp only [Option.some.injEq] at h; exact ⟨_, h.symm⟩)
      | exact absurd h (by simp)

/-- C8: every produced scale — color, neutral, and secondary when
present — has exactly the 11 fixed shade keys, in order, no more and no
fewer, each mapped to a hex string (given that the adapter's hex
formatter produces hex strings). -/
theorem scales_have_fixed_shade_keys (A : ColorAdapter) (hex scheme : String)
    (m1 m2 m3 : List (String × String))
    (h1 : generateColorScale A hex = some m1)
    (h2 : generateNeutralScale A hex = some m2)
    (h3 : generateSecondaryScale A hex scheme = some (some m3))
    (hfmt : ∀ c, isHexColorB (A.formatHex c) = true) :
    (m1.map Prod.fst = SHADE_KEYS ∧ m2.map Prod.fst = SHADE_KEYS ∧
     m3.map Prod.fst = SHADE_KEYS) ∧
    (m1.all (fun kv => isHexColorB kv.2) = true ∧
     m2.all (fun kv => isHexColorB kv.2) = true ∧
     m3.all (fun kv => isHexColorB kv.2) = true) := by
  obtain ⟨sc1, rfl⟩ := generateColorScale_inv A hex m1 h1
  obtain ⟨sc2, rfl⟩ := generateNeutralScale_inv A hex m2 h2
  obtain ⟨sc3, rfl⟩ := generateSecondaryScale_inv A hex scheme m3 h3
  exact ⟨⟨scaleToHexMap_keys A sc1, scaleToHexMap_keys A sc2, scaleToHexMap_keys A sc3⟩,
    scaleToHexMap_values A sc1 hfmt, scaleToHexMap_values A sc2 hfmt,
    scaleToHexMap_values A sc3 hfmt⟩

/-- Witness for C8 with the deterministic demo adapter. -/
theorem scales_have_fixed_shade_keys_witness :
    ((scaleToHexMap demoAdapter demoScale).map Prod.fst = SHADE_KEYS ∧
     (scaleToHexMap demoAdapter demoScale).map Prod.fst = SHADE_KEYS ∧
     (scaleToHexMap demoAdapter demoScale).map Prod.fst = SHADE_KEYS) ∧
    ((scaleToHexMap demoAdapter demoScale).all (fun kv => isHexColorB kv.2) = true ∧
     (scaleToHexMap demoAdapter demoScale).all (fun kv => isHexColorB kv.2) = true ∧
     (scaleToHexMap demoAdapter demoScale).all (fun kv => isHexColorB kv.2) = true) :=
  scales_have_fixed_shade_keys demoAdapter "#123456" "analogous"
    (scaleToHexMap demoAdapter demoScale) (scaleToHexMap demoAdapter demoScale)
    (scaleToHexMap demoAdapter demoScale) rfl rfl rfl
    (fun _ => (by decide : isHexColorB "#336699" = true))

/-- C7: `checkWCAG` returns exactly the six entries `text/bg`,
`text/surface`, `text-muted/bg`, `text-muted/surface`, `primary/bg`,
`primary/surface` when the token set has no `primary-text` role, and
exactly those plus `primary-text/bg` and `primary-text/surface` when it
has one (bound, as every token is, to a non-empty hex string). -/
theorem checkWCAG_keys (pow24 : ℚ → ℚ) (tokens : List (String × Option String))
    (s1 s2 s3 s4 s5 : String)
    (htext : tokens.lookup "text" = some (some s1))
    (hbg : tokens.lookup "bg" = some (some s2))
    (hsurface : tokens.lookup "surface" = some (some s3))
    (hmuted : tokens.lookup "text-muted" = some (some s4))
    (hprimary : tokens.lookup "primary" = some (some s5)) :
    (tokens.lookup "primary-text" = none →
      Option.map (fun l => l.map Prod.fst) (checkWCAG pow24 tokens) =
        some ["text/bg", "text/surface", "text-muted/bg", "text-muted/surface",
              "primary/bg", "primary/surface"]) ∧
    (∀ s6, s6 ≠ "" → tokens.lookup "primary-text" = some (some s6) →
      Option.map (fun l => l.map Prod.fst) (checkWCAG pow24 tokens) =
        some ["text/bg", "text/surface", "text-muted/bg", "text-muted/surface",
              "primary/bg", "primary/surface", "primary-text/bg", "primary-text/surface"]) := by
  constructor
  · intro hpt
    simp [checkWCAG, tokenTruthy, hpt, basePairs, extraPairs, auditPairs,
      htext, hbg, hsurface, hmuted, hprimary]
  · intro s6 hs6 hpt
    simp [checkWCAG, tokenTruthy, hpt, hs6, basePairs, extraPairs, auditPairs,
      htext, hbg, hsurface, hmuted, hprimary]

/-- Token sets used by the C7 witness. -/
def tokens6 : List (String × Option String) :=
  [ ("bg", some "#ffffff"), ("surface", some "#eeeeee"), ("text", some "#111111")
  , ("text-muted", some "#555555"), ("primary", some "#3366cc") ]

/-- Dark-style token set with a `primary-text` role. -/
def tokens8 : List (String × Option String) :=
  tokens6 ++ [("primary-text", some "#99bbff")]

/-- Witness for C7 on concrete light-style and dark-style token sets. -/
theorem checkWCAG_keys_witness :
    Option.map (fun l => l.map Prod.fst) (checkWCAG (fun q => q) tokens6) =
      some ["text/bg", "text/surface", "text-muted/bg", "text-muted/surface",
            "primary/bg", "primary/surface"] ∧
    Option.map (fun l => l.map Prod.fst) (checkWCAG (fun q => q) tokens8) =
      some ["text/bg", "text/surface", "text-muted/bg", "text-muted/surface",
            "primary/bg", "primary/surface", "primary-text/bg", "primary-text/surface"] := by
  constructor
  · exact (checkWCAG_keys (fun q => q) tokens6 "#111111" "#ffffff" "#eeeeee" "#555555"
      "#3366cc" rfl rfl rfl rfl rfl).1 rfl
  · exact (checkWCAG_keys (fun q => q) tokens8 "#111111" "#ffffff" "#eeeeee" "#555555"
      "#3366cc" rfl rfl rfl rfl rfl).2 "#99bbff" (by decide) rfl

/-- C10: each audit entry of `checkWCAG` (built by `wcagEntry`) computes
its pass flag from the unrounded contrast ratio while its ratio field is
the ratio rounded to two decimals; consequently a pair whose exact ratio
lies in `[4.495, 4.5)` reports ratio `4.5` yet `pass = false`. -/
theorem wcagEntry_pass_unrounded (pow24 : ℚ → ℚ) (fg bg : String) (r : ℚ)
    (hr : contrastRatio pow24 fg bg = some r) :
    (wcagEntry pow24 fg bg).ratio = some (jsRound2 r) ∧
    (wcagEntry pow24 fg bg).pass = decide (9 / 2 ≤ r) ∧
    (899 / 200 ≤ r → r < 9 / 2 →
      (wcagEntry pow24 fg bg).ratio = some (9 / 2) ∧
      (wcagEntry pow24 fg bg).pass = false) := by
  unfold wcagEntry
  rw [hr]
  refine ⟨rfl, rfl, fun hlo hhi => ⟨?_, ?_⟩⟩
  · have hfloor : (r * 100 + 1 / 2).floor = 450 := by
      rw [ratFloor_eq_intFloor]
      rw [Int.floor_eq_iff]
      constructor
      · push_cast
        linarith
      · push_cast
        linarith
    simp only [jsRound2, hfloor]
    norm_num
  · simp only [decide_eq_false_iff_not, not_le]
    exact hhi

/-- Abstract power function used by the C10 witness, chosen so the
concrete pair below has contrast ratio exactly 4.496. -/
def pow24demo : ℚ → ℚ := fun _ => 874 / 1063

lemma contrastRatio_demo :
    contrastRatio pow24demo "#ff0000" "#000000" = some (562 / 125) := by
  have hf : parseInt16 ['f', 'f'] = some 255 := by decide
  have h0 : parseInt16 ['0', '0'] = some 0 := by decide
  simp [contrastRatio, relativeLuminance, channel, hf, h0, toLinear, pow24demo, jsMax, jsMin]
  norm_num

/-- Witness for C10: the concrete pair has exact ratio 4.496 in
`[4.495, 4.5)`; its entry reports 4.5 but does not pass. -/
theorem wcagEntry_pass_unrounded_witness :
    (wcagEntry pow24demo "#ff0000" "#000000").ratio = some (9 / 2) ∧
    (wcagEntry pow24demo "#ff0000" "#000000").pass = false :=
  (wcagEntry_pass_unrounded pow24demo "#ff0000" "#000000" (562 / 125)
    contrastRatio_demo).2.2 (by norm_num) (by norm_num)
